import Mathlib

/-!
Verification of the hybrid memory retrieval engine
(src/agent/memory/embeddings.py and src/agent/memory/store.py).

Modelling conventions:
* Python byte buffers are lists of byte values (Nat, each < 256).
* A stored 4-byte IEEE-754 float32 is identified with its 32-bit pattern
  (a Nat < 2^32); f32ofBits gives the real value of a pattern, which is
  exactly the standard IEEE-754 binary32 decoding used by struct.unpack.
  The exactly-representable finite doubles are exactly the values of
  these patterns, so restricting a claim to exactly representable
  components is modelled by quantifying over patterns.
* Python floats in arithmetic (similarity scores, BM25 ranks) are
  modelled as real numbers.
* Code that raises exceptions is modelled with Except.
* The two external collaborators of the engine are passed as functions:
  the embedding provider (embed_text, which either returns a vector or
  raises) and the SQLite FTS5 backend (the reply to the
  SELECT rowid, rank ... ORDER BY rank query, before the LIMIT clause,
  or a backend fault).
-/

/-! ### Vector codec (embeddings.py: serialize_vector / deserialize_vector) -/

/-- The four little-endian bytes of a 32-bit word: what struct.pack
produces for one float32 value (identified with its bit pattern). -/
def encodeWord (w : Nat) : List Nat :=
  [w % 256, w / 256 % 256, w / 65536 % 256, w / 16777216 % 256]

/-- Rebuild a 32-bit word from four little-endian bytes. -/
def decodeWord (b0 b1 b2 b3 : Nat) : Nat :=
  b0 + 256 * b1 + 65536 * b2 + 16777216 * b3

/-- embeddings.py, serialize_vector: struct.pack packs each float into 4
bytes; the buffer is the concatenation, in order. Vectors are lists of
float32 bit patterns (see the module comment). -/
def serialize_vector (vec : List Nat) : List Nat :=
  vec.flatMap encodeWord

/-- Decode a byte buffer four bytes at a time, as struct.unpack does with
format "{n}f" where n = len(data) // 4: struct.unpack demands that the
buffer length equal 4 * n exactly, so it fails (struct.error) precisely
when the length is not a multiple of 4. -/
def unpackWords : List Nat → Option (List Nat)
  | [] => some []
  | b0 :: b1 :: b2 :: b3 :: rest =>
    (unpackWords rest).map (fun ws => decodeWord b0 b1 b2 b3 :: ws)
  | _ => none

/-- The codec-level error for a buffer whose length is not a multiple of
the float width (the struct.error raised by struct.unpack). -/
inductive CodecError where
  | corruptVector
deriving DecidableEq

/-- embeddings.py, deserialize_vector: n = len(data) // 4, then
struct.unpack("{n}f", data); raises struct.error iff the length is not a
multiple of 4. -/
def deserialize_vector (data : List Nat) : Except CodecError (List Nat) :=
  match unpackWords data with
  | some ws => .ok ws
  | none => .error .corruptVector

/-! ### Float32 value semantics (what struct.unpack returns per word) -/

/-- The real value of a 32-bit IEEE-754 binary32 pattern (sign, 8
exponent bits, 23 mantissa bits). This is the value struct.unpack hands
back to Python for one stored float. Infinities and NaNs (exponent 255)
are not finite floats; their value is irrelevant to every claim and is
set to 0. -/
noncomputable def f32ofBits (b : Nat) : ℝ :=
  let s : Nat := b / 2 ^ 31 % 2
  let e : Nat := b / 2 ^ 23 % 2 ^ 8
  let m : Nat := b % 2 ^ 23
  if e = 0 then (-1 : ℝ) ^ s * (m : ℝ) * (2 : ℝ) ^ (-149 : ℤ)
  else if e = 255 then 0
  else (-1 : ℝ) ^ s * ((2 ^ 23 + m : Nat) : ℝ) * (2 : ℝ) ^ ((e : ℤ) - 150)

/-! ### Cosine similarity (embeddings.py: cosine_similarity) -/

/-- embeddings.py, cosine_similarity, exactly as written: the norms are
sums of squares raised to the power 0.05 (the literal exponent .05 in the
source), and if either norm is zero the function returns 0. -/
noncomputable def cosine_similarity (a b : List ℝ) : ℝ :=
  let dot := (List.zipWith (fun x y => x * y) a b).sum
  let norm_a := ((a.map (fun x => x * x)).sum) ^ (0.05 : ℝ)
  let norm_b := ((b.map (fun x => x * x)).sum) ^ (0.05 : ℝ)
  if norm_a = 0 ∨ norm_b = 0 then 0 else dot / (norm_a * norm_b)

/-- The reference cosine similarity defined by the spec (this follows the
words of the spec, for comparison with the source function): dot product
divided by the product of the Euclidean norms, each norm the sum of
squares raised to the power one-half. -/
noncomputable def cosine_similarity_spec (a b : List ℝ) : ℝ :=
  let dot := (List.zipWith (fun x y => x * y) a b).sum
  let norm_a := ((a.map (fun x => x * x)).sum) ^ (0.5 : ℝ)
  let norm_b := ((b.map (fun x => x * x)).sum) ^ (0.5 : ℝ)
  if norm_a = 0 ∨ norm_b = 0 then 0 else dot / (norm_a * norm_b)

/-! ### Memory store data model (store.py) -/

/-- One row of the memories table: id INTEGER PRIMARY KEY AUTOINCREMENT,
content, category, embedding BLOB (nullable), created_at, updated_at. -/
structure MemoryRow where
  id : Nat
  content : String
  category : String
  embedding : Option (List Nat)
  created_at : String
  updated_at : String
deriving DecidableEq

/-- One row of the memories_fts FTS5 shadow table (rowid, content,
category), kept in sync by the memories_ai / memories_ad triggers. -/
structure FtsRow where
  rowid : Nat
  content : String
  category : String
deriving DecidableEq

/-- The persisted state: the memories table, its FTS5 shadow index, and
the next AUTOINCREMENT id (AUTOINCREMENT never reuses ids). -/
structure StoreState where
  records : List MemoryRow
  fts : List FtsRow
  nextId : Nat
deriving DecidableEq

/-- The state of a freshly created database (sqlite AUTOINCREMENT starts
at 1). -/
def initialState : StoreState := ⟨[], [], 1⟩

/-- The failure mode of the embedding provider: embed_text raises
(ImportError from _get_model) when the model resource is unavailable. -/
inductive EmbError where
  | unavailable
deriving DecidableEq

/-- Modelled from the spec: value-to-pattern float32 encoding used when
save serializes the embedding vector (the rounding step inside
struct.pack, which lives in the Python standard library, not in src/).
For an exactly representable value it returns a pattern with that value;
no claim inspects a blob written by save, so the rounding of
non-representable values is left unspecified (pattern 0). -/
noncomputable def float32bits (x : ℝ) : Nat :=
  if h : ∃ n, n < 2 ^ 32 ∧ f32ofBits n = x then h.choose else 0

namespace MemoryStore

/-- store.py, MemoryStore.save: embed the content (propagating an
embedding failure, since embed_text is called outside any try block),
serialize the vector, INSERT the row; the memories_ai trigger mirrors
the row into memories_fts within the same statement. Returns lastrowid.
There is no content validation of any kind in the source. -/
noncomputable def save (embed : String → Except EmbError (List ℝ))
    (st : StoreState) (content category now : String) :
    Except EmbError (Nat × StoreState) := do
  let emb ← embed content
  let blob := serialize_vector (emb.map float32bits)
  let row : MemoryRow :=
    ⟨st.nextId, content, category, some blob, now, now⟩
  .ok (st.nextId,
    { records := st.records ++ [row],
      fts := st.fts ++ [⟨st.nextId, content, category⟩],
      nextId := st.nextId + 1 })

/-- store.py, MemoryStore.delete: DELETE FROM memories WHERE id = ?; the
memories_ad trigger deletes the matching memories_fts row; returns
whether any row was affected. -/
def delete (st : StoreState) (memory_id : Nat) : Bool × StoreState :=
  (st.records.any (fun r => r.id == memory_id),
   { records := st.records.filter (fun r => r.id != memory_id),
     fts := st.fts.filter (fun r => r.rowid != memory_id),
     nextId := st.nextId })

/-- store.py, MemoryStore.count: SELECT COUNT(*) FROM memories. -/
def count (st : StoreState) : Nat := st.records.length

end MemoryStore

/-! ### get_all (store.py, MemoryStore.get_all) -/

/-- A Python dictionary key: either the builtin function id (store.py
line 210 uses the bare name id, the builtin, as a key) or a string. -/
inductive PyKey where
  | builtinId
  | str (s : String)
deriving DecidableEq

/-- A value in a record dictionary returned by get_all. -/
inductive PyVal where
  | int (n : Nat)
  | str (s : String)
deriving DecidableEq

/-- The dictionary literal built for one row in get_all:
curly-brace literal with keys id (the builtin function, not the string
"id"), "content", "category", "created_at". -/
def rowDict (r : MemoryRow) : List (PyKey × PyVal) :=
  [(PyKey.builtinId, PyVal.int r.id),
   (PyKey.str "content", PyVal.str r.content),
   (PyKey.str "category", PyVal.str r.category),
   (PyKey.str "created_at", PyVal.str r.created_at)]

/-- Stable descending insertion by created_at (ORDER BY created_at DESC;
the exact tie order among equal timestamps is irrelevant to every
claim, which only looks at membership and dictionary shape). -/
def orderedInsertByCreated (a : MemoryRow) : List MemoryRow → List MemoryRow
  | [] => [a]
  | b :: l =>
    if b.created_at ≤ a.created_at then a :: b :: l
    else b :: orderedInsertByCreated a l

/-- Sort the rows most recent first (ORDER BY created_at DESC). -/
def sortByCreatedDesc : List MemoryRow → List MemoryRow
  | [] => []
  | a :: l => orderedInsertByCreated a (sortByCreatedDesc l)

/-- store.py, MemoryStore.get_all: SELECT id, content, category,
created_at FROM memories ORDER BY created_at DESC LIMIT ?, then build
one dictionary per row. -/
def get_all (st : StoreState) (limit : Nat) : List (List (PyKey × PyVal)) :=
  ((sortByCreatedDesc st.records).take limit).map rowDict

/-! ### Search (store.py, MemoryStore.search) -/

/-- The ways MemoryStore.search can raise: the embed_text call at the
top of search (outside any try block) and the struct.error from
deserialize_vector inside the vector-scoring loop (also outside the try
block, which only wraps the FTS5 keyword step). -/
inductive SearchError where
  | embeddingUnavailable
  | corruptVector
deriving DecidableEq

/-- The per-record data kept in the vector_scores dictionary. -/
structure VScore where
  content : String
  category : String
  created_at : String
  vector_score : ℝ

/-- One scored record returned by search (the dictionary of step 5). -/
structure SearchEntry where
  id : Nat
  content : String
  category : String
  created_at : String
  score : ℝ
  vector_score : ℝ
  keyword_score : ℝ

/-- Step 3 of search: for each row whose embedding blob is truthy
(neither NULL nor empty bytes), deserialize it and score it against the
query embedding; vector_score = max(0.0, similarity). A struct.error
from deserialize_vector propagates out of the loop (and out of search).
Ids of the memories table are PRIMARY KEY, hence pairwise distinct, so
the Python dict insertion order is simply row order. -/
noncomputable def computeVectorScores (qe : List ℝ) :
    List MemoryRow → Except SearchError (List (Nat × VScore))
  | [] => .ok []
  | row :: rest =>
    match row.embedding with
    | none => computeVectorScores qe rest
    | some blob =>
      if blob = [] then computeVectorScores qe rest
      else
        match deserialize_vector blob with
        | .error _ => .error .corruptVector
        | .ok ws => do
          let sim := cosine_similarity qe (ws.map f32ofBits)
          let rest2 ← computeVectorScores qe rest
          .ok ((row.id,
            ⟨row.content, row.category, row.created_at, max 0 sim⟩) :: rest2)

/-- The sanitization before the FTS5 query: re.sub removes every
character that is neither a word character nor whitespace (ASCII
approximation of the Python character classes; no claim depends on the
exact class). -/
def sanitize (q : String) : String :=
  String.mk (q.toList.filter
    (fun c => c.isAlphanum || c == '_' || c.isWhitespace))

/-- The test if safe_query.strip(): the sanitized query is kept only if
it still has a non-whitespace character. -/
def hasKeywordSignal (q : String) : Bool :=
  (sanitize q).toList.any (fun c => !c.isWhitespace)

/-- Step 4 of search: run the FTS5 keyword query with LIMIT limit * 3,
then normalize the ranks across the returned batch. The fts argument is
the backend reply to the ORDER BY rank query before the LIMIT clause; a
backend fault (the except branch in the source) yields no keyword
scores. -/
noncomputable def keywordScores
    (fts : String → Except Unit (List (Nat × ℝ)))
    (query : String) (limit : Nat) : List (Nat × ℝ) :=
  if hasKeywordSignal query then
    match fts (sanitize query) with
    | .error _ => []
    | .ok found =>
      match found.take (limit * 3) with
      | [] => []
      | (i0, r0) :: rest =>
        let fts_rows := (i0, r0) :: rest
        let min_rank := rest.foldl (fun m p => min m p.2) r0
        let max_rank := rest.foldl (fun m p => max m p.2) r0
        let rank_range :=
          if max_rank = min_rank then (1 : ℝ) else max_rank - min_rank
        fts_rows.map (fun p =>
          (p.1, if rank_range = 0 then (1 : ℝ)
                else 1 - (p.2 - min_rank) / rank_range))
  else []

/-- Hybrid search weights (store.py module constants). -/
def VECTOR_WEIGHT : ℝ := 0.7

/-- Keyword weight of the hybrid score (store.py module constant). -/
def KEYWORD_WEIGHT : ℝ := 0.3

/-- Step 5 of search: one combined entry per vector_scores item (records
that never entered vector_scores do not appear at all); a record absent
from the keyword batch contributes keyword score 0.0. -/
noncomputable def combineScores (vs : List (Nat × VScore))
    (ks : List (Nat × ℝ)) : List SearchEntry :=
  vs.map (fun p =>
    let v := p.2.vector_score
    let k := (ks.lookup p.1).getD 0
    ⟨p.1, p.2.content, p.2.category, p.2.created_at,
      VECTOR_WEIGHT * v + KEYWORD_WEIGHT * k, v, k⟩)

/-- Stable insertion keeping the list sorted by score descending; ties
keep the earlier element first, as Python list.sort (stable, with
reverse=True) does. -/
noncomputable def orderedInsertDesc (a : SearchEntry) :
    List SearchEntry → List SearchEntry
  | [] => [a]
  | b :: l =>
    if b.score ≤ a.score then a :: b :: l
    else b :: orderedInsertDesc a l

/-- Step 6: combined.sort(key score, reverse=True) — a stable descending
sort by score. -/
noncomputable def sortByScoreDesc : List SearchEntry → List SearchEntry
  | [] => []
  | a :: l => orderedInsertDesc a (sortByScoreDesc l)

namespace MemoryStore

/-- store.py, MemoryStore.search, step by step: embed the query (a
failure propagates — the call is outside any try block); return [] when
the table is empty; compute vector scores (a corrupt stored vector
propagates); compute normalized keyword scores (backend faults are
swallowed); combine with the module weights (a record absent from the
keyword batch gets keyword score 0.0); stable-sort by score descending
and truncate to limit. Records that never entered vector_scores (NULL
or empty embedding blob) are absent from the combined list entirely. -/
noncomputable def search (embed : String → Except EmbError (List ℝ))
    (fts : String → Except Unit (List (Nat × ℝ)))
    (rows : List MemoryRow) (query : String) (limit : Nat) :
    Except SearchError (List SearchEntry) := do
  let qe ← (embed query).mapError (fun _ => SearchError.embeddingUnavailable)
  if rows = [] then .ok [] else do
    let vscores ← computeVectorScores qe rows
    let combined := combineScores vscores (keywordScores fts query limit)
    .ok ((sortByScoreDesc combined).take limit)

end MemoryStore

/-! ### Operation sequences (for the store/index correspondence) -/

/-- One externally triggered mutation of the store: a save call (with
the reply of the embedding provider for its content) or a delete. -/
inductive StoreOp where
  | save (content category now : String) (emb : Except EmbError (List ℝ))
  | delete (memory_id : Nat)

/-- Apply one operation: a save whose embedding call raises leaves the
state unchanged (the exception propagates before the INSERT). -/
noncomputable def applyOp (st : StoreState) : StoreOp → StoreState
  | .save content category now emb =>
    match MemoryStore.save (fun _ => emb) st content category now with
    | .ok (_, st2) => st2
    | .error _ => st
  | .delete m => (MemoryStore.delete st m).2

/-- Run a sequence of operations left to right. -/
noncomputable def runOps (st : StoreState) (ops : List StoreOp) : StoreState :=
  ops.foldl applyOp st

/-- The keyword index / record table correspondence invariant: the fts
rowids are exactly the record ids, in table order. -/
def IndexInSync (st : StoreState) : Prop :=
  st.records.map (fun r => r.id) = st.fts.map (fun r => r.rowid)

/-! ### Concrete store instances used to settle the limit-monotonicity
claim. The blob [0,0,128,58] holds the little-endian float32 pattern
981467136, whose value is 2 to the power -10; [0,0,0,0] holds 0.0. -/

/-- A working embedding provider returning the query vector [1, 0]. -/
noncomputable def c7Embed : String → Except EmbError (List ℝ) :=
  fun _ => .ok [1, 0]

/-- An FTS backend with four matches; ranks are BM25-style,
lower-is-better. -/
noncomputable def c7Fts : String → Except Unit (List (Nat × ℝ)) :=
  fun _ => .ok [(1, -1048576), (2, -1048575), (3, -1048574), (4, 0)]

/-- Four records: record 1 embeds to [0, 1/1024] (orthogonal to the
query), records 2 and 3 embed to [1/1024, 0], record 4 to [0,1/1024]. -/
def c7Rows : List MemoryRow :=
  [⟨1, "a", "fact", some [0, 0, 0, 0, 0, 0, 128, 58], "t1", "t1"⟩,
   ⟨2, "b", "fact", some [0, 0, 128, 58, 0, 0, 0, 0], "t2", "t2"⟩,
   ⟨3, "c", "fact", some [0, 0, 128, 58, 0, 0, 0, 0], "t3", "t3"⟩,
   ⟨4, "d", "fact", some [0, 0, 0, 0, 0, 0, 128, 58], "t4", "t4"⟩]

/-- The entries search produces on c7Rows at limit 1 (keyword batch of
three: normalized scores 1, 1/2, 0). -/
noncomputable def c7E1 : SearchEntry := ⟨1, "a", "fact", "t1", 3 / 10, 0, 1⟩

/-- Entry of record 2 at limit 1. -/
noncomputable def c7E2 : SearchEntry :=
  ⟨2, "b", "fact", "t2", 155 / 1024, 1 / 512, 1 / 2⟩

/-- Entry of record 3 at limit 1. -/
noncomputable def c7E3 : SearchEntry :=
  ⟨3, "c", "fact", "t3", 7 / 5120, 1 / 512, 0⟩

/-- Entry of record 4 (no keyword hit in the batch at limit 1). -/
noncomputable def c7E4 : SearchEntry := ⟨4, "d", "fact", "t4", 0, 0, 0⟩

/-- Entry of record 2 at limit 2 (keyword batch of four: its normalized
keyword score grows to 1048575/1048576 and its total passes 3/10). -/
noncomputable def c7E2b : SearchEntry :=
  ⟨2, "b", "fact", "t2", 3160061 / 10485760, 1 / 512, 1048575 / 1048576⟩

/-- Entry of record 3 at limit 2. -/
noncomputable def c7E3b : SearchEntry :=
  ⟨3, "c", "fact", "t3", 3160058 / 10485760, 1 / 512, 524287 / 524288⟩

/-- One-record store used as witness data: its blob decodes to the zero
vector, so its similarity with any query is 0. -/
def c7WRows : List MemoryRow :=
  [⟨1, "m", "fact", some [0, 0, 0, 0, 0, 0, 0, 0], "t", "t"⟩]

/-- FTS backend with a single match, for the witness store. -/
noncomputable def c7WFts : String → Except Unit (List (Nat × ℝ)) :=
  fun _ => .ok [(1, -1)]

/-- The single entry search returns on the witness store. -/
noncomputable def c7WE : SearchEntry := ⟨1, "m", "fact", "t", 3 / 10, 0, 1⟩

/-! ### Codec lemmas -/

theorem decodeWord_encodeWord (w : Nat) (h : w < 4294967296) :
    decodeWord (w % 256) (w / 256 % 256) (w / 65536 % 256)
      (w / 16777216 % 256) = w := by
  unfold decodeWord
  omega

theorem unpackWords_serialize (v : List Nat) (h : ∀ x ∈ v, x < 4294967296) :
    unpackWords (serialize_vector v) = some v := by
  induction v with
  | nil => rfl
  | cons w rest ih =>
    have hw : w < 4294967296 := h w (List.mem_cons_self ..)
    have hrest : ∀ x ∈ rest, x < 4294967296 :=
      fun x hx => h x (List.mem_cons_of_mem _ hx)
    show unpackWords (encodeWord w ++ serialize_vector rest) = _
    simp [encodeWord, unpackWords, ih hrest, decodeWord_encodeWord w hw]

theorem serialize_vector_length (v : List Nat) :
    (serialize_vector v).length = 4 * v.length := by
  induction v with
  | nil => rfl
  | cons w rest ih =>
    show (encodeWord w ++ serialize_vector rest).length = _
    simp [encodeWord, ih]
    ring

theorem unpackWords_eq_none (data : List Nat) (h : data.length % 4 ≠ 0) :
    unpackWords data = none := by
  induction data using unpackWords.induct with
  | case1 => simp at h
  | case2 b0 b1 b2 b3 rest ih =>
    simp only [unpackWords]
    have : rest.length % 4 ≠ 0 := by
      simp only [List.length_cons] at h
      omega
    rw [ih this]
    rfl
  | case3 => simp [unpackWords]

theorem unpackWords_exists_of_mod (data : List Nat) (h : data.length % 4 = 0) :
    ∃ ws, unpackWords data = some ws := by
  induction data using unpackWords.induct with
  | case1 => exact ⟨[], rfl⟩
  | case2 b0 b1 b2 b3 rest ih =>
    have : rest.length % 4 = 0 := by
      simp only [List.length_cons] at h
      omega
    obtain ⟨ws, hws⟩ := ih this
    exact ⟨decodeWord b0 b1 b2 b3 :: ws, by simp [unpackWords, hws]⟩
  | case3 t h1 h2 =>
    exfalso
    rcases t with _ | ⟨a, _ | ⟨b, _ | ⟨c, _ | ⟨d, r⟩⟩⟩⟩
    · exact h1 rfl
    · simp at h
    · simp at h
    · simp at h
    · exact h2 a b c d r rfl

/-- C8: for every vector of float32 values (identified with their 32-bit
patterns, i.e. the exactly representable finite floats), decoding the
encoded buffer returns the vector exactly, and the buffer length is
4 bytes per component. -/
theorem c8_codec_roundtrip (v : List Nat) (h : ∀ x ∈ v, x < 4294967296) :
    deserialize_vector (serialize_vector v) = .ok v ∧
      (serialize_vector v).length = 4 * v.length := by
  refine ⟨?_, serialize_vector_length v⟩
  unfold deserialize_vector
  rw [unpackWords_serialize v h]

/-- Witness for C8 at a concrete three-component vector (patterns of
0.0, 2 to the power -10, and the all-ones pattern). -/
theorem c8_codec_roundtrip_witness :
    deserialize_vector (serialize_vector [0, 981467136, 4294967295]) =
        .ok [0, 981467136, 4294967295] ∧
      (serialize_vector [0, 981467136, 4294967295]).length =
        4 * [0, 981467136, 4294967295].length :=
  c8_codec_roundtrip [0, 981467136, 4294967295] (by decide)

/-! ### Store / keyword-index correspondence (C9) -/

theorem map_filter_eq_of_map_eq {α β γ : Type} (f : α → γ) (g : β → γ)
    (q : γ → Bool) :
    ∀ (l1 : List α) (l2 : List β), l1.map f = l2.map g →
      (l1.filter (fun a => q (f a))).map f =
        (l2.filter (fun b => q (g b))).map g := by
  intro l1
  induction l1 with
  | nil =>
    intro l2 h
    cases l2 with
    | nil => rfl
    | cons b t => simp at h
  | cons a t ih =>
    intro l2 h
    cases l2 with
    | nil => simp at h
    | cons b t2 =>
      simp only [List.map_cons, List.cons.injEq] at h
      obtain ⟨hab, ht⟩ := h
      simp only [List.filter_cons, hab, ht, ih t2 ht]
      cases q (g b) <;> simp [hab, ih t2 ht]

theorem save_ok_eq (embed : String → Except EmbError (List ℝ))
    (st : StoreState) (content category now : String) (v : List ℝ)
    (h : embed content = .ok v) :
    MemoryStore.save embed st content category now =
      .ok (st.nextId,
        { records := st.records ++
            [⟨st.nextId, content, category,
              some (serialize_vector (v.map float32bits)), now, now⟩],
          fts := st.fts ++ [⟨st.nextId, content, category⟩],
          nextId := st.nextId + 1 }) := by
  unfold MemoryStore.save
  rw [h]
  rfl

theorem applyOp_preserves_sync (st : StoreState) (op : StoreOp)
    (h : IndexInSync st) : IndexInSync (applyOp st op) := by
  cases op with
  | save content category now emb =>
    cases emb with
    | error e => exact h
    | ok v =>
      have hs := save_ok_eq (fun _ => Except.ok v) st content category now v rfl
      unfold IndexInSync at h ⊢
      simp only [applyOp, hs]
      simp [h]
  | delete m =>
    unfold IndexInSync at h ⊢
    simp only [applyOp, MemoryStore.delete]
    exact map_filter_eq_of_map_eq _ _ (fun n => n != m) _ _ h

/-- C9: after every sequence of save and delete operations starting from
a state where the keyword index matches the record table, the fts rowids
still equal the record ids: each save inserts into both (the INSERT plus
its memories_ai trigger) and each delete removes from both (the DELETE
plus its memories_ad trigger). -/
theorem c9_index_in_sync (ops : List StoreOp) (st : StoreState)
    (h : IndexInSync st) : IndexInSync (runOps st ops) := by
  induction ops generalizing st with
  | nil => exact h
  | cons op rest ih =>
    exact ih (applyOp st op) (applyOp_preserves_sync st op h)

/-- Witness for C9: a concrete save / save / delete history from the
fresh database. -/
theorem c9_index_in_sync_witness :
    IndexInSync (runOps initialState
      [StoreOp.save "User prefers dark mode" "preference" "t1" (.ok [1]),
       StoreOp.save "Deploy on Fridays is risky" "lesson" "t2"
         (.error .unavailable),
       StoreOp.delete 1]) :=
  c9_index_in_sync _ initialState rfl

/-! ### get_all dictionaries (C10) -/

theorem mem_orderedInsertByCreated (a x : MemoryRow) :
    ∀ l : List MemoryRow, x ∈ orderedInsertByCreated a l → x = a ∨ x ∈ l := by
  intro l
  induction l with
  | nil =>
    intro h
    simpa [orderedInsertByCreated] using h
  | cons b t ih =>
    intro h
    unfold orderedInsertByCreated at h
    by_cases hc : b.created_at ≤ a.created_at
    · rw [if_pos hc, List.mem_cons] at h
      exact h.imp id id
    · rw [if_neg hc, List.mem_cons] at h
      rcases h with h | h
      · exact Or.inr (by simp [h])
      · rcases ih h with h2 | h2
        · exact Or.inl h2
        · exact Or.inr (List.mem_cons_of_mem _ h2)

theorem mem_sortByCreatedDesc (x : MemoryRow) :
    ∀ l : List MemoryRow, x ∈ sortByCreatedDesc l → x ∈ l := by
  intro l
  induction l with
  | nil =>
    intro h
    simp [sortByCreatedDesc] at h
  | cons a t ih =>
    intro h
    unfold sortByCreatedDesc at h
    rcases mem_orderedInsertByCreated a x _ h with h2 | h2
    · simp [h2]
    · exact List.mem_cons_of_mem _ (ih h2)

/-- C10: every record dictionary returned by get_all has no entry under
the string key "id" (looking it up fails); the integer identifier sits
under the Python builtin function id used as the dictionary key. -/
theorem c10_get_all_id_key (st : StoreState) (limit : Nat)
    (d : List (PyKey × PyVal)) (h : d ∈ get_all st limit) :
    d.lookup (PyKey.str "id") = none ∧
      ∃ n, d.lookup PyKey.builtinId = some (PyVal.int n) := by
  unfold get_all at h
  obtain ⟨r, _, hd⟩ := List.mem_map.mp h
  subst hd
  exact ⟨rfl, r.id, rfl⟩

/-- The reduced form of search when the embedding succeeds, the table is
non-empty, and every stored vector deserializes. -/
theorem search_eq (embed : String → Except EmbError (List ℝ))
    (fts : String → Except Unit (List (Nat × ℝ))) (rows : List MemoryRow)
    (query : String) (limit : Nat) (qe : List ℝ) (vs : List (Nat × VScore))
    (h1 : embed query = .ok qe) (h2 : ¬ rows = [])
    (h3 : computeVectorScores qe rows = .ok vs) :
    MemoryStore.search embed fts rows query limit =
      .ok ((sortByScoreDesc
        (combineScores vs (keywordScores fts query limit))).take limit) := by
  obtain ⟨r, rs, rfl⟩ := List.exists_cons_of_ne_nil h2
  unfold MemoryStore.search
  rw [h1]
  show Except.bind (computeVectorScores qe (r :: rs))
      (fun vs => Except.ok ((sortByScoreDesc
        (combineScores vs (keywordScores fts query limit))).take limit)) = _
  rw [h3]
  rfl

/-- C2 counterexample: a store holding a record whose content matches
the query keywords, an FTS backend that finds it, and an unavailable
embedding provider; search does not return keyword-only results — it
fails with the embedding error (embed_text is called at the top of
search outside any try block). -/
theorem c2_embed_down_search_raises_counterexample :
    MemoryStore.search (fun _ => .error .unavailable)
      (fun _ => .ok [(1, -1)])
      [⟨1, "User prefers dark mode", "preference", some [0, 0, 0, 0],
        "t1", "t1"⟩]
      "dark mode" 5 = .error .embeddingUnavailable := rfl

/-- C2 amended: whenever the embedding provider is unavailable (every
embedding call fails), search propagates the failure for every store
state, query and limit, instead of degrading to keyword-only results. -/
theorem c2_embed_down_search_raises
    (fts : String → Except Unit (List (Nat × ℝ)))
    (rows : List MemoryRow) (query : String) (limit : Nat) :
    MemoryStore.search (fun _ => .error .unavailable) fts rows query limit =
      .error .embeddingUnavailable := rfl

/-- C4 counterexample: saving empty content from the fresh store does
not fail with InvalidContent — no content validation exists in save; a
record is inserted and the count rises to 1. -/
theorem c4_save_empty_content_counterexample :
    ∃ st2 : StoreState,
      MemoryStore.save (fun _ => .ok []) initialState "" "fact" "t0" =
          .ok (1, st2) ∧
        MemoryStore.count st2 = 1 :=
  ⟨_, save_ok_eq (fun _ => .ok []) initialState "" "fact" "t0" [] rfl, rfl⟩

/-- C4 amended: save performs no content validation at all: for every
content string — empty and whitespace-only included — if the embedding
call succeeds, save inserts a record and returns the new id, and the
record count rises by exactly one. -/
theorem c4_save_no_content_validation
    (embed : String → Except EmbError (List ℝ)) (st : StoreState)
    (content category now : String) (v : List ℝ)
    (h : embed content = .ok v) :
    ∃ st2 : StoreState,
      MemoryStore.save embed st content category now =
          .ok (st.nextId, st2) ∧
        MemoryStore.count st2 = MemoryStore.count st + 1 := by
  refine ⟨_, save_ok_eq embed st content category now v h, ?_⟩
  simp [MemoryStore.count]

/-- Witness for C4 at whitespace-only content on the fresh store. -/
theorem c4_save_no_content_validation_witness :
    ∃ st2 : StoreState,
      MemoryStore.save (fun _ => .ok []) initialState "   " "fact" "t0" =
          .ok (initialState.nextId, st2) ∧
        MemoryStore.count st2 = MemoryStore.count initialState + 1 :=
  c4_save_no_content_validation (fun _ => .ok []) initialState
    "   " "fact" "t0" [] rfl

/-- Equation: a row with a NULL embedding is skipped by the
vector-scoring loop. -/
theorem computeVectorScores_cons_none (qe : List ℝ) (row : MemoryRow)
    (rest : List MemoryRow) (h : row.embedding = none) :
    computeVectorScores qe (row :: rest) = computeVectorScores qe rest := by
  obtain ⟨i, c, cat, emb, ca, ua⟩ := row
  cases h
  rfl

/-- Equation: a row with an empty (falsy) embedding blob is skipped by
the vector-scoring loop. -/
theorem computeVectorScores_cons_empty (qe : List ℝ) (row : MemoryRow)
    (rest : List MemoryRow) (h : row.embedding = some []) :
    computeVectorScores qe (row :: rest) = computeVectorScores qe rest := by
  obtain ⟨i, c, cat, emb, ca, ua⟩ := row
  cases h
  rfl

/-- Equation: a corrupt blob (length not decodable by struct.unpack)
makes the whole loop raise. -/
theorem computeVectorScores_cons_corrupt (qe : List ℝ) (row : MemoryRow)
    (rest : List MemoryRow) (blob : List Nat) (h : row.embedding = some blob)
    (hb : ¬ blob = []) (hc : unpackWords blob = none) :
    computeVectorScores qe (row :: rest) = .error .corruptVector := by
  obtain ⟨i, c, cat, emb, ca, ua⟩ := row
  cases h
  simp only [computeVectorScores]
  rw [if_neg hb]
  simp only [deserialize_vector, hc]

/-- Equation: a decodable blob scores the row against the query and
keeps scanning. -/
theorem computeVectorScores_cons_ok (qe : List ℝ) (row : MemoryRow)
    (rest : List MemoryRow) (blob ws : List Nat)
    (h : row.embedding = some blob) (hb : ¬ blob = [])
    (hw : unpackWords blob = some ws) :
    computeVectorScores qe (row :: rest) =
      Except.bind (computeVectorScores qe rest) (fun rest2 =>
        Except.ok ((row.id,
          ⟨row.content, row.category, row.created_at,
            max 0 (cosine_similarity qe (ws.map f32ofBits))⟩) :: rest2)) := by
  obtain ⟨i, c, cat, emb, ca, ua⟩ := row
  cases h
  simp only [computeVectorScores]
  rw [if_neg hb]
  simp only [deserialize_vector, hw]
  rfl

/-- C5 machinery: a store whose stored blobs all have well-formed
lengths never makes the vector-scoring loop raise. -/
theorem computeVectorScores_ok (qe : List ℝ) :
    ∀ rows : List MemoryRow,
      (∀ r ∈ rows, ∀ blob, r.embedding = some blob → blob.length % 4 = 0) →
      ∃ vs, computeVectorScores qe rows = .ok vs := by
  intro rows
  induction rows with
  | nil => exact fun _ => ⟨[], rfl⟩
  | cons row rest ih =>
    intro h
    obtain ⟨vs, hvs⟩ := ih (fun r hr => h r (List.mem_cons_of_mem _ hr))
    cases hemb : row.embedding with
    | none => exact ⟨vs, by rw [computeVectorScores_cons_none qe row rest hemb, hvs]⟩
    | some blob =>
      by_cases hb : blob = []
      · subst hb
        exact ⟨vs, by rw [computeVectorScores_cons_empty qe row rest hemb, hvs]⟩
      · obtain ⟨ws, hws⟩ :=
          unpackWords_exists_of_mod blob (h row (List.mem_cons_self ..) blob hemb)
        exact ⟨(row.id, ⟨row.content, row.category, row.created_at,
            max 0 (cosine_similarity qe (ws.map f32ofBits))⟩) :: vs, by
          rw [computeVectorScores_cons_ok qe row rest blob ws hemb hb hws, hvs]
          rfl⟩

/-- C5 counterexample: searching with the empty query does not fail with
InvalidQuery — on an empty store it returns the empty result list. -/
theorem c5_empty_query_ok_counterexample :
    MemoryStore.search (fun _ => .ok []) (fun _ => .ok []) [] "" 5 =
      .ok [] := rfl

/-- C5 amended: no InvalidQuery failure exists: for every query — the
empty string included — search returns an ok result list whenever the
embedding call succeeds and every stored blob has a well-formed length;
search can fail only through the embedding call or a corrupt stored
vector, never because the query is empty. -/
theorem c5_no_invalid_query
    (embed : String → Except EmbError (List ℝ))
    (fts : String → Except Unit (List (Nat × ℝ)))
    (rows : List MemoryRow) (query : String) (limit : Nat) (qe : List ℝ)
    (h1 : embed query = .ok qe)
    (h2 : ∀ r ∈ rows, ∀ blob, r.embedding = some blob →
      blob.length % 4 = 0) :
    ∃ res, MemoryStore.search embed fts rows query limit = .ok res := by
  by_cases hrows : rows = []
  · subst hrows
    refine ⟨[], ?_⟩
    unfold MemoryStore.search
    rw [h1]
    rfl
  · obtain ⟨vs, hvs⟩ := computeVectorScores_ok qe rows h2
    exact ⟨_, search_eq embed fts rows query limit qe vs h1 hrows hvs⟩

/-- Witness for C5 at the empty query on an empty store. -/
theorem c5_no_invalid_query_witness :
    ∃ res, MemoryStore.search (fun _ => .ok []) (fun _ => .ok []) [] "" 5 =
      .ok res :=
  c5_no_invalid_query (fun _ => .ok []) (fun _ => .ok []) [] "" 5 [] rfl
    (by simp)

/-- The reduced form of search when the vector-scoring loop raises. -/
theorem search_vs_error (embed : String → Except EmbError (List ℝ))
    (fts : String → Except Unit (List (Nat × ℝ))) (rows : List MemoryRow)
    (query : String) (limit : Nat) (qe : List ℝ) (err : SearchError)
    (h1 : embed query = .ok qe) (h2 : ¬ rows = [])
    (h3 : computeVectorScores qe rows = .error err) :
    MemoryStore.search embed fts rows query limit = .error err := by
  obtain ⟨r, rs, rfl⟩ := List.exists_cons_of_ne_nil h2
  unfold MemoryStore.search
  rw [h1]
  show Except.bind (computeVectorScores qe (r :: rs))
      (fun vs => Except.ok ((sortByScoreDesc
        (combineScores vs (keywordScores fts query limit))).take limit)) = _
  rw [h3]
  rfl

/-- A corrupt blob anywhere in the table makes the vector-scoring loop
raise struct.error (modelled: the CorruptVector error). -/
theorem computeVectorScores_corrupt (qe : List ℝ) :
    ∀ (rows : List MemoryRow) (row : MemoryRow) (blob : List Nat),
      row ∈ rows → row.embedding = some blob → blob.length % 4 ≠ 0 →
      computeVectorScores qe rows = .error .corruptVector := by
  intro rows
  induction rows with
  | nil =>
    intro row blob h
    simp at h
  | cons head rest ih =>
    intro row blob hmem hemb hlen
    rcases List.mem_cons.mp hmem with heq | hmem2
    · subst heq
      have hb : ¬ blob = [] := by
        intro he
        rw [he] at hlen
        simp at hlen
      exact computeVectorScores_cons_corrupt qe row rest blob hemb hb
        (unpackWords_eq_none blob hlen)
    · have herr := ih row blob hmem2 hemb hlen
      cases hhe : head.embedding with
      | none =>
        rw [computeVectorScores_cons_none qe head rest hhe]
        exact herr
      | some hblob =>
        by_cases hhb : hblob = []
        · rw [computeVectorScores_cons_empty qe head rest (by rw [hhe, hhb])]
          exact herr
        · cases hun : unpackWords hblob with
          | none => exact computeVectorScores_cons_corrupt qe head rest hblob hhe hhb hun
          | some ws =>
            rw [computeVectorScores_cons_ok qe head rest hblob ws hhe hhb hun, herr]
            rfl

/-- C6 counterexample: a record whose stored blob has 5 bytes (not a
multiple of the float width) is not silently excluded from scoring:
search crashes with the deserialization error instead of completing. -/
theorem c6_corrupt_vector_crash_counterexample :
    MemoryStore.search (fun _ => .ok []) (fun _ => .ok [])
      [⟨1, "corrupted row", "fact", some [0, 0, 0, 0, 0], "t1", "t1"⟩]
      "anything" 5 = .error .corruptVector := rfl

/-- C6 amended: a stored blob whose byte length is not a multiple of 4
is indeed a CorruptVector error at the codec level, but search does not
exclude the record and continue: the error propagates (the
deserialize_vector call sits outside the try block) and the whole
search fails. -/
theorem c6_corrupt_vector_crashes_search
    (embed : String → Except EmbError (List ℝ))
    (fts : String → Except Unit (List (Nat × ℝ)))
    (rows : List MemoryRow) (query : String) (limit : Nat) (qe : List ℝ)
    (row : MemoryRow) (blob : List Nat)
    (h1 : embed query = .ok qe) (hrow : row ∈ rows)
    (hemb : row.embedding = some blob) (hlen : blob.length % 4 ≠ 0) :
    deserialize_vector blob = .error .corruptVector ∧
      MemoryStore.search embed fts rows query limit =
        .error .corruptVector := by
  constructor
  · unfold deserialize_vector
    rw [unpackWords_eq_none blob hlen]
  · exact search_vs_error embed fts rows query limit qe .corruptVector h1
      (List.ne_nil_of_mem hrow)
      (computeVectorScores_corrupt qe rows row blob hrow hemb hlen)

/-- Witness for C6 at the concrete 5-byte blob. -/
theorem c6_corrupt_vector_crashes_search_witness :
    deserialize_vector [0, 0, 0, 0, 0] = .error .corruptVector ∧
      MemoryStore.search (fun _ => .ok []) (fun _ => .ok [])
        [⟨1, "corrupted row", "fact", some [0, 0, 0, 0, 0], "t1", "t1"⟩]
        "anything" 5 = .error .corruptVector :=
  c6_corrupt_vector_crashes_search (fun _ => .ok []) (fun _ => .ok [])
    [⟨1, "corrupted row", "fact", some [0, 0, 0, 0, 0], "t1", "t1"⟩]
    "anything" 5 []
    ⟨1, "corrupted row", "fact", some [0, 0, 0, 0, 0], "t1", "t1"⟩
    [0, 0, 0, 0, 0] rfl (by decide) rfl (by decide)

theorem mem_orderedInsertDesc (a x : SearchEntry) :
    ∀ l : List SearchEntry, x ∈ orderedInsertDesc a l → x = a ∨ x ∈ l := by
  intro l
  induction l with
  | nil =>
    intro h
    simpa [orderedInsertDesc] using h
  | cons b t ih =>
    intro h
    unfold orderedInsertDesc at h
    by_cases hc : b.score ≤ a.score
    · rw [if_pos hc, List.mem_cons] at h
      exact h.imp id id
    · rw [if_neg hc, List.mem_cons] at h
      rcases h with h | h
      · exact Or.inr (by simp [h])
      · rcases ih h with h2 | h2
        · exact Or.inl h2
        · exact Or.inr (List.mem_cons_of_mem _ h2)

theorem mem_sortByScoreDesc (x : SearchEntry) :
    ∀ l : List SearchEntry, x ∈ sortByScoreDesc l → x ∈ l := by
  intro l
  induction l with
  | nil =>
    intro h
    simp [sortByScoreDesc] at h
  | cons a t ih =>
    intro h
    unfold sortByScoreDesc at h
    rcases mem_orderedInsertDesc a x _ h with h2 | h2
    · simp [h2]
    · exact List.mem_cons_of_mem _ (ih h2)

theorem combineScores_mem (e : SearchEntry) (vs : List (Nat × VScore))
    (ks : List (Nat × ℝ)) (h : e ∈ combineScores vs ks) :
    ∃ p ∈ vs, e.id = p.1 := by
  unfold combineScores at h
  obtain ⟨p, hp, he⟩ := List.mem_map.mp h
  exact ⟨p, hp, by rw [← he]⟩

/-- Every entry of the vector_scores dictionary comes from a row with a
truthy (non-NULL, non-empty) embedding blob. -/
theorem computeVectorScores_mem (qe : List ℝ) :
    ∀ (rows : List MemoryRow) (vs : List (Nat × VScore)) (p : Nat × VScore),
      computeVectorScores qe rows = .ok vs → p ∈ vs →
      ∃ r ∈ rows, r.id = p.1 ∧ ∃ blob, r.embedding = some blob ∧ blob ≠ [] := by
  intro rows
  induction rows with
  | nil =>
    intro vs p h hp
    simp only [computeVectorScores, Except.ok.injEq] at h
    subst h
    simp at hp
  | cons head rest ih =>
    intro vs p h hp
    cases hhe : head.embedding with
    | none =>
      rw [computeVectorScores_cons_none qe head rest hhe] at h
      obtain ⟨r, hr, hrest⟩ := ih vs p h hp
      exact ⟨r, List.mem_cons_of_mem _ hr, hrest⟩
    | some hblob =>
      by_cases hhb : hblob = []
      · rw [computeVectorScores_cons_empty qe head rest (by rw [hhe, hhb])] at h
        obtain ⟨r, hr, hrest⟩ := ih vs p h hp
        exact ⟨r, List.mem_cons_of_mem _ hr, hrest⟩
      · cases hun : unpackWords hblob with
        | none =>
          rw [computeVectorScores_cons_corrupt qe head rest hblob hhe hhb hun] at h
          simp at h
        | some ws =>
          rw [computeVectorScores_cons_ok qe head rest hblob ws hhe hhb hun] at h
          cases hrest : computeVectorScores qe rest with
          | error err =>
            rw [hrest] at h
            simp [Except.bind] at h
          | ok rest2 =>
            rw [hrest] at h
            simp only [Except.bind, Except.ok.injEq] at h
            subst h
            rcases List.mem_cons.mp hp with hpe | hpe
            · subst hpe
              exact ⟨head, List.mem_cons_self .., rfl, hblob, hhe, hhb⟩
            · obtain ⟨r, hr, hrest3⟩ := ih rest2 p hrest hpe
              exact ⟨r, List.mem_cons_of_mem _ hr, hrest3⟩

/-- C3 counterexample: a store whose only record has a NULL embedding,
an FTS backend that matches it for the query, and a working embedder;
search returns the empty list — the record is invisible, it is not
returned with vector contribution zero. -/
theorem c3_null_embedding_invisible_counterexample :
    MemoryStore.search (fun _ => .ok []) (fun _ => .ok [(1, -1)])
      [⟨1, "User prefers dark mode", "preference", none, "t1", "t1"⟩]
      "dark mode" 5 = .ok [] := rfl

/-- C3 amended: a persisted record whose embedding is NULL is never
returned by search, whatever the keyword signal: the combine loop of
step 5 iterates only over vector_scores, which such a record never
enters. -/
theorem c3_null_embedding_invisible
    (embed : String → Except EmbError (List ℝ))
    (fts : String → Except Unit (List (Nat × ℝ)))
    (rows : List MemoryRow) (query : String) (limit : Nat) (qe : List ℝ)
    (res : List SearchEntry) (row : MemoryRow) (e : SearchEntry)
    (h1 : embed query = .ok qe)
    (hnodup : (rows.map (fun r => r.id)).Nodup)
    (hs : MemoryStore.search embed fts rows query limit = .ok res)
    (hrow : row ∈ rows) (hemb : row.embedding = none)
    (he : e ∈ res) : e.id ≠ row.id := by
  by_cases hrows : rows = []
  · subst hrows
    simp at hrow
  · cases hvs : computeVectorScores qe rows with
    | error err =>
      rw [search_vs_error embed fts rows query limit qe err h1 hrows hvs] at hs
      simp at hs
    | ok vs =>
      rw [search_eq embed fts rows query limit qe vs h1 hrows hvs] at hs
      simp only [Except.ok.injEq] at hs
      subst hs
      intro hid
      have he2 := mem_sortByScoreDesc e _ (List.take_subset _ _ he)
      obtain ⟨p, hp, hpid⟩ := combineScores_mem e vs _ he2
      obtain ⟨r, hr, hrid, blob, hrblob, hrne⟩ :=
        computeVectorScores_mem qe rows vs p hvs hp
      have : r = row :=
        List.inj_on_of_nodup_map hnodup hr hrow (by rw [hrid, ← hpid, hid])
      rw [this, hemb] at hrblob
      exact Option.noConfusion hrblob

theorem two_pow_rpow (k : ℕ) (r : ℝ) :
    ((2 : ℝ) ^ k) ^ r = (2 : ℝ) ^ ((k : ℝ) * r) := by
  rw [← Real.rpow_natCast 2 k, ← Real.rpow_mul (by norm_num)]

theorem rpow_1048576_twentieth : ((1048576 : ℝ)) ^ ((1 / 20 : ℝ)) = 2 := by
  rw [show (1048576 : ℝ) = (2 : ℝ) ^ (20 : ℕ) by norm_num]
  rw [two_pow_rpow]
  rw [show ((20 : ℕ) : ℝ) * (1 / 20 : ℝ) = 1 by norm_num]
  exact Real.rpow_one 2

theorem rpow_1048576_half : ((1048576 : ℝ)) ^ ((1 / 2 : ℝ)) = 1024 := by
  rw [show (1048576 : ℝ) = (2 : ℝ) ^ (20 : ℕ) by norm_num]
  rw [two_pow_rpow]
  rw [show ((20 : ℕ) : ℝ) * (1 / 2 : ℝ) = ((10 : ℕ) : ℝ) by norm_num]
  rw [Real.rpow_natCast]
  norm_num

/-- C1: the exponent in the source is .05, not .5, so cosine_similarity
does not compute the cosine: on the one-dimensional vectors a = b =
[1024.0] the code returns 262144, while the reference definition of the
spec (sum of squares to the power one-half) gives 1; the code value
also escapes [-1, 1]. The search pipeline feeds exactly this value (via
max(0.0, s)) into every vector score. -/
theorem c1_cosine_similarity_exponent_code_bug :
    cosine_similarity [(1024 : ℝ)] [(1024 : ℝ)] = 262144 ∧
      cosine_similarity_spec [(1024 : ℝ)] [(1024 : ℝ)] = 1 ∧
      1 < cosine_similarity [(1024 : ℝ)] [(1024 : ℝ)] := by
  refine ⟨?_, ?_, ?_⟩
  · unfold cosine_similarity
    norm_num [rpow_1048576_twentieth]
  · unfold cosine_similarity_spec
    norm_num [rpow_1048576_half]
  · unfold cosine_similarity
    norm_num [rpow_1048576_twentieth]

/-- The reduced form of search when the embedding call reports failure. -/
theorem search_embed_error_eq (embed : String → Except EmbError (List ℝ))
    (fts : String → Except Unit (List (Nat × ℝ))) (rows : List MemoryRow)
    (query : String) (limit : Nat) (err : EmbError)
    (h : embed query = .error err) :
    MemoryStore.search embed fts rows query limit =
      .error .embeddingUnavailable := by
  unfold MemoryStore.search
  rw [h]
  rfl

/-- The reduced form of search on an empty table. -/
theorem search_nil_eq (embed : String → Except EmbError (List ℝ))
    (fts : String → Except Unit (List (Nat × ℝ))) (query : String)
    (limit : Nat) (qe : List ℝ) (h : embed query = .ok qe) :
    MemoryStore.search embed fts [] query limit = .ok [] := by
  unfold MemoryStore.search
  rw [h]
  rfl

/-- When the FTS backend has at most m * 3 matches, the keyword batch —
and hence the normalized keyword scores — are the same at limit m and
at any larger limit. -/
theorem keywordScores_limit_stable
    (fts : String → Except Unit (List (Nat × ℝ))) (query : String)
    (m n : Nat) (hmn : m ≤ n)
    (hlen : ∀ l, fts (sanitize query) = .ok l → l.length ≤ m * 3) :
    keywordScores fts query m = keywordScores fts query n := by
  unfold keywordScores
  cases hsig : hasKeywordSignal query with
  | false => simp
  | true =>
    simp only [if_true]
    cases hfts : fts (sanitize query) with
    | error e => rfl
    | ok l =>
      have h1 : l.take (m * 3) = l := List.take_of_length_le (hlen l hfts)
      have h2 : l.take (n * 3) = l :=
        List.take_of_length_le (le_trans (hlen l hfts)
          (Nat.mul_le_mul_right 3 hmn))
      dsimp only
      rw [h1, h2]

/-- C7 amended: prefix-stability of the ranking holds only when the
keyword candidate batch is the same at both limits — in particular
whenever the FTS backend has at most m * 3 matches for the query. Then
every record of search(query, m) also appears in search(query, n) for
m ≤ n. (Without that proviso the claim fails: the batch is cut at
limit * 3 and the rank normalization is batch-relative, so raising the
limit reshuffles scores; see the counterexample.) -/
theorem c7_limit_monotone_with_stable_batch
    (embed : String → Except EmbError (List ℝ))
    (fts : String → Except Unit (List (Nat × ℝ)))
    (rows : List MemoryRow) (query : String) (m n : Nat) (qe : List ℝ)
    (rm rn : List SearchEntry) (e : SearchEntry)
    (hmn : m ≤ n)
    (hq : embed query = .ok qe)
    (hlen : ∀ l, fts (sanitize query) = .ok l → l.length ≤ m * 3)
    (hm : MemoryStore.search embed fts rows query m = .ok rm)
    (hn : MemoryStore.search embed fts rows query n = .ok rn)
    (he : e ∈ rm) : e ∈ rn := by
  by_cases hrows : rows = []
  · subst hrows
    rw [search_nil_eq embed fts query m qe hq] at hm
    simp only [Except.ok.injEq] at hm
    subst hm
    simp at he
  · cases hvs : computeVectorScores qe rows with
    | error err =>
      rw [search_vs_error embed fts rows query m qe err hq hrows hvs] at hm
      simp at hm
    | ok vs =>
      rw [search_eq embed fts rows query m qe vs hq hrows hvs] at hm
      rw [search_eq embed fts rows query n qe vs hq hrows hvs] at hn
      rw [keywordScores_limit_stable fts query m n hmn hlen] at hm
      simp only [Except.ok.injEq] at hm hn
      subst hm
      subst hn
      have h3 : (sortByScoreDesc (combineScores vs
          (keywordScores fts query n))).take m =
          ((sortByScoreDesc (combineScores vs
            (keywordScores fts query n))).take n).take m := by
        rw [List.take_take, Nat.min_eq_left hmn]
      rw [h3] at he
      exact List.take_subset _ _ he

theorem rpow_inv1048576_twentieth :
    ((1 / 1048576 : ℝ)) ^ ((1 / 20 : ℝ)) = 1 / 2 := by
  rw [show (1 / 1048576 : ℝ) = (1048576 : ℝ)⁻¹ by norm_num]
  rw [Real.inv_rpow (by norm_num), rpow_1048576_twentieth]
  norm_num

theorem f32ofBits_zero : f32ofBits 0 = 0 := by
  unfold f32ofBits
  norm_num

theorem f32ofBits_inv1024 : f32ofBits 981467136 = 1 / 1024 := by
  unfold f32ofBits
  norm_num

theorem cosine_q_zero : cosine_similarity [1, 0] [0, 0] = 0 := by
  unfold cosine_similarity
  norm_num [Real.zero_rpow]

theorem cosine_q_orth : cosine_similarity [1, 0] [0, 1 / 1024] = 0 := by
  unfold cosine_similarity
  norm_num [Real.one_rpow, rpow_inv1048576_twentieth]

theorem cosine_q_aligned :
    cosine_similarity [1, 0] [1 / 1024, 0] = 1 / 512 := by
  unfold cosine_similarity
  norm_num [Real.one_rpow, rpow_inv1048576_twentieth]

theorem c7_vs_eval : computeVectorScores [1, 0] c7Rows =
    .ok [(1, ⟨"a", "fact", "t1", 0⟩), (2, ⟨"b", "fact", "t2", 1 / 512⟩),
         (3, ⟨"c", "fact", "t3", 1 / 512⟩), (4, ⟨"d", "fact", "t4", 0⟩)] := by
  have h1 : unpackWords [0, 0, 0, 0, 0, 0, 128, 58] = some [0, 981467136] := by
    decide
  have h2 : unpackWords [0, 0, 128, 58, 0, 0, 0, 0] = some [981467136, 0] := by
    decide
  have hb1 : ¬([0, 0, 0, 0, 0, 0, 128, 58] : List Nat) = [] := by decide
  have hb2 : ¬([0, 0, 128, 58, 0, 0, 0, 0] : List Nat) = [] := by decide
  norm_num [c7Rows, computeVectorScores, deserialize_vector, h1, h2, hb1, hb2,
    Except.bind, f32ofBits_zero, f32ofBits_inv1024, cosine_q_orth,
    cosine_q_aligned]
  rfl

theorem c7_ks1_eval :
    keywordScores c7Fts "hello" 1 = [(1, 1), (2, 1 / 2), (3, 0)] := by
  have hsig : hasKeywordSignal "hello" = true := by decide
  norm_num [keywordScores, hsig, c7Fts, min_def, max_def]

theorem c7_ks2_eval :
    keywordScores c7Fts "hello" 2 =
      [(1, 1), (2, 1048575 / 1048576), (3, 524287 / 524288), (4, 0)] := by
  have hsig : hasKeywordSignal "hello" = true := by decide
  norm_num [keywordScores, hsig, c7Fts, min_def, max_def]

theorem c7_combine1_eval :
    combineScores
      [(1, ⟨"a", "fact", "t1", 0⟩), (2, ⟨"b", "fact", "t2", 1 / 512⟩),
       (3, ⟨"c", "fact", "t3", 1 / 512⟩), (4, ⟨"d", "fact", "t4", 0⟩)]
      [(1, 1), (2, 1 / 2), (3, 0)] = [c7E1, c7E2, c7E3, c7E4] := by
  have hl1 : List.lookup 1 [(1, (1 : ℝ)), (2, 1 / 2), (3, 0)] = some 1 := rfl
  have hl2 : List.lookup 2 [(1, (1 : ℝ)), (2, 1 / 2), (3, 0)] =
    some (1 / 2) := rfl
  have hl3 : List.lookup 3 [(1, (1 : ℝ)), (2, 1 / 2), (3, 0)] = some 0 := rfl
  have hl4 : List.lookup 4 [(1, (1 : ℝ)), (2, 1 / 2), (3, 0)] = none := rfl
  simp only [combineScores, List.map_cons, List.map_nil]
  rw [hl1, hl2, hl3, hl4]
  norm_num [VECTOR_WEIGHT, KEYWORD_WEIGHT, c7E1, c7E2, c7E3, c7E4,
    SearchEntry.mk.injEq]

theorem c7_combine2_eval :
    combineScores
      [(1, ⟨"a", "fact", "t1", 0⟩), (2, ⟨"b", "fact", "t2", 1 / 512⟩),
       (3, ⟨"c", "fact", "t3", 1 / 512⟩), (4, ⟨"d", "fact", "t4", 0⟩)]
      [(1, 1), (2, 1048575 / 1048576), (3, 524287 / 524288), (4, 0)] =
      [c7E1, c7E2b, c7E3b, c7E4] := by
  have hl1 : List.lookup 1 [(1, (1 : ℝ)), (2, 1048575 / 1048576),
    (3, 524287 / 524288), (4, 0)] = some 1 := rfl
  have hl2 : List.lookup 2 [(1, (1 : ℝ)), (2, 1048575 / 1048576),
    (3, 524287 / 524288), (4, 0)] = some (1048575 / 1048576) := rfl
  have hl3 : List.lookup 3 [(1, (1 : ℝ)), (2, 1048575 / 1048576),
    (3, 524287 / 524288), (4, 0)] = some (524287 / 524288) := rfl
  have hl4 : List.lookup 4 [(1, (1 : ℝ)), (2, 1048575 / 1048576),
    (3, 524287 / 524288), (4, 0)] = some 0 := rfl
  simp only [combineScores, List.map_cons, List.map_nil]
  rw [hl1, hl2, hl3, hl4]
  norm_num [VECTOR_WEIGHT, KEYWORD_WEIGHT, c7E1, c7E2b, c7E3b, c7E4,
    SearchEntry.mk.injEq]

theorem c7_sort1_eval :
    sortByScoreDesc [c7E1, c7E2, c7E3, c7E4] = [c7E1, c7E2, c7E3, c7E4] := by
  norm_num [sortByScoreDesc, orderedInsertDesc, c7E1, c7E2, c7E3, c7E4]

theorem c7_sort2_eval :
    sortByScoreDesc [c7E1, c7E2b, c7E3b, c7E4] =
      [c7E2b, c7E3b, c7E1, c7E4] := by
  norm_num [sortByScoreDesc, orderedInsertDesc, c7E1, c7E2b, c7E3b, c7E4]

/-- C7 counterexample: on the four-record store c7Rows with keyword
ranks -1048576, -1048575, -1048574, 0, search at limit 1 returns record
1, but search at limit 2 returns records 2 and 3 — record 1 disappears
when the limit is raised. Cause: the keyword batch is cut at limit * 3
(three candidates at limit 1, four at limit 2) and the rank
normalization is batch-relative, so the fourth candidate stretches the
rank range and lifts records 2 and 3 above record 1. -/
theorem c7_limit_monotonicity_counterexample :
    Except.map (fun l => l.map (fun e => e.id))
        (MemoryStore.search c7Embed c7Fts c7Rows "hello" 1) = .ok [1] ∧
      Except.map (fun l => l.map (fun e => e.id))
        (MemoryStore.search c7Embed c7Fts c7Rows "hello" 2) = .ok [2, 3] := by
  constructor
  · rw [search_eq c7Embed c7Fts c7Rows "hello" 1 [1, 0] _ rfl
      (by decide) c7_vs_eval]
    rw [c7_ks1_eval, c7_combine1_eval, c7_sort1_eval]
    simp [c7E1, Except.map]
  · rw [search_eq c7Embed c7Fts c7Rows "hello" 2 [1, 0] _ rfl
      (by decide) c7_vs_eval]
    rw [c7_ks2_eval, c7_combine2_eval, c7_sort2_eval]
    simp [c7E2b, c7E3b, Except.map]

theorem c7_wvs_eval :
    computeVectorScores [1, 0] c7WRows = .ok [(1, ⟨"m", "fact", "t", 0⟩)] := by
  have h1 : unpackWords [0, 0, 0, 0, 0, 0, 0, 0] = some [0, 0] := by decide
  have hb : ¬([0, 0, 0, 0, 0, 0, 0, 0] : List Nat) = [] := by decide
  norm_num [c7WRows, computeVectorScores, deserialize_vector, h1, hb,
    Except.bind, f32ofBits_zero, cosine_q_zero]
  rfl

theorem c7_wks1_eval : keywordScores c7WFts "hello" 1 = [(1, 1)] := by
  have hsig : hasKeywordSignal "hello" = true := by decide
  norm_num [keywordScores, hsig, c7WFts, min_def, max_def]

theorem c7_wks2_eval : keywordScores c7WFts "hello" 2 = [(1, 1)] := by
  have hsig : hasKeywordSignal "hello" = true := by decide
  norm_num [keywordScores, hsig, c7WFts, min_def, max_def]

theorem c7_wcombine_eval :
    combineScores [(1, ⟨"m", "fact", "t", 0⟩)] [(1, 1)] = [c7WE] := by
  norm_num [combineScores, VECTOR_WEIGHT, KEYWORD_WEIGHT, List.lookup,
    c7WE, SearchEntry.mk.injEq]

theorem c7_wsearch1_eval :
    MemoryStore.search c7Embed c7WFts c7WRows "hello" 1 = .ok [c7WE] := by
  rw [search_eq c7Embed c7WFts c7WRows "hello" 1 [1, 0] _ rfl
    (by decide) c7_wvs_eval]
  rw [c7_wks1_eval, c7_wcombine_eval]
  rfl

theorem c7_wsearch2_eval :
    MemoryStore.search c7Embed c7WFts c7WRows "hello" 2 = .ok [c7WE] := by
  rw [search_eq c7Embed c7WFts c7WRows "hello" 2 [1, 0] _ rfl
    (by decide) c7_wvs_eval]
  rw [c7_wks2_eval, c7_wcombine_eval]
  rfl

/-- Witness for the amended C7 on the one-record store: the keyword
backend has a single match (at most 1 * 3), so the entry returned at
limit 1 is still returned at limit 2. -/
theorem c7_limit_monotone_with_stable_batch_witness : c7WE ∈ [c7WE] :=
  c7_limit_monotone_with_stable_batch c7Embed c7WFts c7WRows "hello" 1 2
    [1, 0] [c7WE] [c7WE] c7WE (by norm_num) rfl
    (fun l h => by
      injection h with h2
      rw [← h2]
      norm_num)
    c7_wsearch1_eval c7_wsearch2_eval (List.mem_singleton.mpr rfl)

/-- Witness for C10 on a one-record store. -/
theorem c10_get_all_id_key_witness :
    (rowDict ⟨7, "User prefers dark mode", "preference", none, "t1", "t1"⟩).lookup
        (PyKey.str "id") = none ∧
      ∃ n, (rowDict ⟨7, "User prefers dark mode", "preference", none,
        "t1", "t1"⟩).lookup PyKey.builtinId = some (PyVal.int n) :=
  c10_get_all_id_key
    ⟨[⟨7, "User prefers dark mode", "preference", none, "t1", "t1"⟩], [], 8⟩
    100 _ (by decide)

theorem c3_wvs_eval :
    computeVectorScores [1, 0]
      [⟨1, "m", "fact", some [0, 0, 0, 0, 0, 0, 0, 0], "t", "t"⟩,
       ⟨2, "n", "fact", none, "t", "t"⟩] =
      .ok [(1, ⟨"m", "fact", "t", 0⟩)] := by
  have h1 : unpackWords [0, 0, 0, 0, 0, 0, 0, 0] = some [0, 0] := by decide
  have hb : ¬([0, 0, 0, 0, 0, 0, 0, 0] : List Nat) = [] := by decide
  norm_num [computeVectorScores, deserialize_vector, h1, hb,
    Except.bind, f32ofBits_zero, cosine_q_zero]
  rfl

theorem c3_wsearch_eval :
    MemoryStore.search c7Embed c7WFts
      [⟨1, "m", "fact", some [0, 0, 0, 0, 0, 0, 0, 0], "t", "t"⟩,
       ⟨2, "n", "fact", none, "t", "t"⟩] "hello" 1 = .ok [c7WE] := by
  rw [search_eq c7Embed c7WFts _ "hello" 1 [1, 0] _ rfl
    (by decide) c3_wvs_eval]
  rw [c7_wks1_eval, c7_wcombine_eval]
  rfl

/-- Witness for C3: a store with a scored record (id 1) and a
NULL-embedding record (id 2); the returned entry is not record 2. -/
theorem c3_null_embedding_invisible_witness :
    c7WE.id ≠ (⟨2, "n", "fact", none, "t", "t"⟩ : MemoryRow).id :=
  c3_null_embedding_invisible c7Embed c7WFts
    [⟨1, "m", "fact", some [0, 0, 0, 0, 0, 0, 0, 0], "t", "t"⟩,
     ⟨2, "n", "fact", none, "t", "t"⟩]
    "hello" 1 [1, 0] [c7WE]
    ⟨2, "n", "fact", none, "t", "t"⟩ c7WE
    rfl (by decide) c3_wsearch_eval (by decide) rfl
    (List.mem_singleton.mpr rfl)
